import Mathlib

/-!
Material property declaration front-end and composite vector functor

A shallow embedding of `framework/include/materials/MaterialBase.h` (the typed
declare / zero-fallback entry points of a material) and of
`modules/navier_stokes/include/utils/VectorCompositeFunctor.h`.

One template instantiation `<T, is_ad>` is embedded as a Lean function over the element
type `T` (the stored quadrature-point value, with its zero and its default-constructed
value) and an explicit flag `is_ad : Bool`.  The object, the collaborators it holds by
reference (`_fe_problem`, `materialData()`) and the function-local static of the anonymous
zero getter are one explicit state record that every entry point takes and returns.
A C++ exception (`mooseError`) is the `Except.error` result.
-/

namespace Moose

/-- Subdomain identifier (an unsigned integer type of the mesh library). -/
abbrev SubdomainID := Nat

/-- Boundary identifier (a signed integer type of the mesh library). -/
abbrev BoundaryID := Int

/-- The three generations of a property value array. -/
inductive MaterialPropState where
  | CURRENT
  | OLD
  | OLDER
  deriving DecidableEq, Repr

/-- The error raised by `mooseError`. -/
inductive MooseError where
  | pastConstructionStage
  deriving DecidableEq, Repr

namespace MooseUtils

/-- Modelled from the spec: `MooseUtils::join` is not part of the excerpt; it concatenates the
strings of a sequence, writing the delimiter between neighbours (the suffix "is appended"
to the declared name behind a "_"). -/
def join : List String → String → String
  | [], _ => ""
  | [s], _ => s
  | s :: t :: rest, delimiter => s ++ delimiter ++ join (t :: rest) delimiter

end MooseUtils

namespace MathUtils

/-- Modelled from the spec: `MathUtils::mooseSetToZero` is not part of the excerpt; it
overwrites its argument with "the type's zero value". -/
def mooseSetToZero {T : Type} [Zero T] (_v : T) : T := 0

end MathUtils

/-- Modelled from the spec: the input parameters of the object (`_pars`), restricted to the
parameters of type `MaterialPropertyName`: a key to value association. -/
structure InputParameters where
  materialPropertyNames : List (String × String)

namespace InputParameters

/-- Modelled from the spec: `have_parameter<MaterialPropertyName>(name)`, whether a parameter
of that type is stored under the key. -/
def have_parameter (pars : InputParameters) (name : String) : Bool :=
  (pars.materialPropertyNames.lookup name).isSome

/-- Modelled from the spec: `get<MaterialPropertyName>(name)`, the value stored under the key. -/
def get (pars : InputParameters) (name : String) : String :=
  (pars.materialPropertyNames.lookup name).getD ""

end InputParameters

/-- Modelled from the spec: the part of the problem object (`_fe_problem`) the header calls:
whether execution has progressed past the construction stage, the maximum quadrature-point
count, the requested names, and per region the registered property names and the registered
zero-fallback names. -/
structure FEProblemBase where
  startedInitialSetup : Bool
  maxQps : Nat
  requestedMatProps : Finset String
  subdomainMatPropNames : SubdomainID → Finset String
  boundaryMatPropNames : BoundaryID → Finset String
  subdomainZeroMatProps : SubdomainID → Finset String
  boundaryZeroMatProps : BoundaryID → Finset String

namespace FEProblemBase

/-- Modelled from the spec: `getMaxQps()`, the maximum quadrature-point count. -/
def getMaxQps (fe : FEProblemBase) : Nat := fe.maxQps

/-- Modelled from the spec: `markMatPropRequested(name)` records the name as requested. -/
def markMatPropRequested (fe : FEProblemBase) (name : String) : FEProblemBase :=
  { fe with requestedMatProps := insert name fe.requestedMatProps }

/-- Modelled from the spec: `storeSubdomainMatPropName(id, name)` adds the name to the
property names of the subdomain. -/
def storeSubdomainMatPropName (fe : FEProblemBase) (block_id : SubdomainID) (name : String) :
    FEProblemBase :=
  { fe with subdomainMatPropNames := fun b =>
      if b = block_id then insert name (fe.subdomainMatPropNames b)
      else fe.subdomainMatPropNames b }

/-- Modelled from the spec: `storeBoundaryMatPropName(id, name)` adds the name to the
property names of the boundary. -/
def storeBoundaryMatPropName (fe : FEProblemBase) (boundary_id : BoundaryID) (name : String) :
    FEProblemBase :=
  { fe with boundaryMatPropNames := fun b =>
      if b = boundary_id then insert name (fe.boundaryMatPropNames b)
      else fe.boundaryMatPropNames b }

/-- Modelled from the spec: `storeSubdomainZeroMatProp(id, name)` adds the name to the
zero-fallback names registered for the subdomain. -/
def storeSubdomainZeroMatProp (fe : FEProblemBase) (block_id : SubdomainID) (name : String) :
    FEProblemBase :=
  { fe with subdomainZeroMatProps := fun b =>
      if b = block_id then insert name (fe.subdomainZeroMatProps b)
      else fe.subdomainZeroMatProps b }

/-- Modelled from the spec: `storeBoundaryZeroMatProp(id, name)` adds the name to the
zero-fallback names registered for the boundary. -/
def storeBoundaryZeroMatProp (fe : FEProblemBase) (boundary_id : BoundaryID) (name : String) :
    FEProblemBase :=
  { fe with boundaryZeroMatProps := fun b =>
      if b = boundary_id then insert name (fe.boundaryZeroMatProps b)
      else fe.boundaryZeroMatProps b }

end FEProblemBase

/-- Modelled from the spec: `resize` of a property value array is not part of the excerpt.
Growing keeps the entries already there and appends default-constructed ones; a smaller
size keeps the leading entries. -/
def resize {T : Type} [Inhabited T] (n : Nat) (a : List T) : List T :=
  a.take n ++ List.replicate (n - a.length) default

/-- Modelled from the spec: the property store (`materialData()`): the (name,
derivative-carrying flag) pairs in the order their identifiers were assigned, and the value
array of every generation of every such pair (empty until it is sized). -/
structure MaterialData (T : Type) where
  ids : List (String × Bool)
  props : MaterialPropState → String × Bool → List T

namespace MaterialData

variable {T : Type}

/-- Modelled from the spec: an identifier is assigned on first use and never reassigned. -/
def addProperty (md : MaterialData T) (key : String × Bool) : MaterialData T :=
  if key ∈ md.ids then md else { md with ids := md.ids ++ [key] }

/-- Modelled from the spec: `declareProperty<T>(name)`, the CURRENT array of the plain form. -/
def declareProperty (md : MaterialData T) (prop_name : String) : List T × MaterialData T :=
  (md.props .CURRENT (prop_name, false), md.addProperty (prop_name, false))

/-- Modelled from the spec: `declarePropertyOld<T>(name)`, the OLD array of the plain form. -/
def declarePropertyOld (md : MaterialData T) (prop_name : String) : List T × MaterialData T :=
  (md.props .OLD (prop_name, false), md.addProperty (prop_name, false))

/-- Modelled from the spec: `declarePropertyOlder<T>(name)`, the OLDER array of the plain
form. -/
def declarePropertyOlder (md : MaterialData T) (prop_name : String) : List T × MaterialData T :=
  (md.props .OLDER (prop_name, false), md.addProperty (prop_name, false))

/-- Modelled from the spec: `declareADProperty<T>(name)`, the CURRENT array of the
derivative-carrying form. -/
def declareADProperty (md : MaterialData T) (prop_name : String) : List T × MaterialData T :=
  (md.props .CURRENT (prop_name, true), md.addProperty (prop_name, true))

/-- Modelled from the spec: `getGenericProperty<T, is_ad>(name)`, the CURRENT array of the
form selected by the flag, created on first use. -/
def getGenericProperty (md : MaterialData T) (is_ad : Bool) (prop_name : String) :
    List T × MaterialData T :=
  (md.props .CURRENT (prop_name, is_ad), md.addProperty (prop_name, is_ad))

/-- Writing through the reference returned by `getGenericProperty`. -/
def assign (md : MaterialData T) (is_ad : Bool) (prop_name : String) (a : List T) :
    MaterialData T :=
  { md with props := fun g key =>
      if g = .CURRENT ∧ key = (prop_name, is_ad) then a else md.props g key }

end MaterialData

/-- The material object: the members the entry points read and write, the restriction
(`blockIDs()`, `boundaryIDs()`, iterated in order), the collaborators held by reference, and
the function-local static `zero` of the anonymous getter, one array per `is_ad`. -/
structure MaterialBase (T : Type) where
  _pars : InputParameters
  _declare_suffix : String
  blockIDs : List SubdomainID
  boundaryIDs : List BoundaryID
  _requested_props : Finset String
  _supplied_props : Finset String
  _props_to_flags : String → Finset MaterialPropState
  _fe_problem : FEProblemBase
  materialData : MaterialData T
  zero : Bool → List T

namespace MaterialBase

variable {T : Type}

/-- Modelled from the spec: the body of `registerPropName` is not part of the excerpt.  The
header calls it a "small helper function to call store{Subdomain,Boundary}MatPropName"; a
declaration (not a get) records the name in the supplied set with its generation. -/
def registerPropName (self : MaterialBase T) (prop_name : String) (is_get : Bool)
    (state : MaterialPropState) : MaterialBase T :=
  let self1 : MaterialBase T :=
    if is_get then self
    else { self with
      _supplied_props := insert prop_name self._supplied_props
      _props_to_flags := fun n =>
        if n = prop_name then insert state (self._props_to_flags n) else self._props_to_flags n }
  let fe1 := self1.blockIDs.foldl
    (fun fe block_id => fe.storeSubdomainMatPropName block_id prop_name) self1._fe_problem
  let fe2 := self1.boundaryIDs.foldl
    (fun fe boundary_id => fe.storeBoundaryMatPropName boundary_id prop_name) fe1
  { self1 with _fe_problem := fe2 }

/-- Modelled from the spec: the body of `checkExecutionStage` is not part of the excerpt:
"check and throw an error if the execution has progressed past the construction stage". -/
def checkExecutionStage (self : MaterialBase T) : Except MooseError Unit :=
  if self._fe_problem.startedInitialSetup then .error .pastConstructionStage else .ok ()

/-- Source function `MaterialBase::declarePropertyByName<T>`. -/
def declarePropertyByName (self : MaterialBase T) (prop_name_in : String) :
    Except MooseError (List T × MaterialBase T) :=
  let prop_name :=
    if self._declare_suffix.isEmpty then prop_name_in
    else MooseUtils.join [prop_name_in, self._declare_suffix] "_"
  let self1 := self.registerPropName prop_name false .CURRENT
  let r := self1.materialData.declareProperty prop_name
  .ok (r.1, { self1 with materialData := r.2 })

/-- Source function `MaterialBase::declareProperty<T>`. -/
def declareProperty (self : MaterialBase T) (name : String) :
    Except MooseError (List T × MaterialBase T) :=
  let prop_name := name
  let prop_name :=
    if self._pars.have_parameter name then self._pars.get name else prop_name
  self.declarePropertyByName prop_name

/-- Source function `MaterialBase::declarePropertyOld<T>`; the deprecation notice is a message only. -/
def declarePropertyOld (self : MaterialBase T) (prop_name : String) :
    Except MooseError (List T × MaterialBase T) :=
  let self1 := self.registerPropName prop_name false .OLD
  let r := self1.materialData.declarePropertyOld prop_name
  .ok (r.1, { self1 with materialData := r.2 })

/-- Source function `MaterialBase::declarePropertyOlder<T>`; the deprecation notice is a message only. -/
def declarePropertyOlder (self : MaterialBase T) (prop_name : String) :
    Except MooseError (List T × MaterialBase T) :=
  let self1 := self.registerPropName prop_name false .OLDER
  let r := self1.materialData.declarePropertyOlder prop_name
  .ok (r.1, { self1 with materialData := r.2 })

/-- Source function `MaterialBase::declareADPropertyByName<T>`. -/
def declareADPropertyByName (self : MaterialBase T) (prop_name_in : String) :
    Except MooseError (List T × MaterialBase T) :=
  let prop_name :=
    if self._declare_suffix.isEmpty then prop_name_in
    else MooseUtils.join [prop_name_in, self._declare_suffix] "_"
  let self1 := self.registerPropName prop_name false .CURRENT
  let r := self1.materialData.declareADProperty prop_name
  .ok (r.1, { self1 with materialData := r.2 })

/-- Source function `MaterialBase::declareADProperty<T>`. -/
def declareADProperty (self : MaterialBase T) (name : String) :
    Except MooseError (List T × MaterialBase T) :=
  let prop_name := name
  let prop_name :=
    if self._pars.have_parameter name then self._pars.get name else prop_name
  self.declareADPropertyByName prop_name

/-- Source function `MaterialBase::declareGenericProperty<T, is_ad>`: the overload enabled for the flag. -/
def declareGenericProperty (is_ad : Bool) (self : MaterialBase T) (prop_name : String) :
    Except MooseError (List T × MaterialBase T) :=
  match is_ad with
  | true => self.declareADProperty prop_name
  | false => self.declareProperty prop_name

/-- Source function `MaterialBase::declareGenericPropertyByName<T, is_ad>`: the overload enabled for the
flag. -/
def declareGenericPropertyByName (is_ad : Bool) (self : MaterialBase T) (prop_name : String) :
    Except MooseError (List T × MaterialBase T) :=
  match is_ad with
  | true => self.declareADPropertyByName prop_name
  | false => self.declarePropertyByName prop_name

/-- The loop `for (qp = 0; qp < nqp; ++qp) mooseSetToZero(a[qp])`. -/
def setAllToZero [Zero T] (nqp : Nat) (a : List T) : List T :=
  (List.range nqp).foldl
    (fun acc qp =>
      match acc[qp]? with
      | some v => acc.set qp (MathUtils.mooseSetToZero v)
      | none => acc)
    a

/-- Source function `MaterialBase::getGenericZeroMaterialPropertyByName<T, is_ad>`. -/
def getGenericZeroMaterialPropertyByName [Zero T] [Inhabited T] (is_ad : Bool)
    (self : MaterialBase T) (prop_name : String) :
    Except MooseError (List T × MaterialBase T) :=
  match self.checkExecutionStage with
  | .error e => .error e
  | .ok () =>
    let r := self.materialData.getGenericProperty is_ad prop_name
    let preload_with_zero := r.1
    let self1 : MaterialBase T :=
      { self with materialData := r.2
                  _requested_props := insert prop_name self._requested_props }
    let self2 := self1.registerPropName prop_name true .CURRENT
    let fe3 := self2._fe_problem.markMatPropRequested prop_name
    let fe4 := self2.blockIDs.foldl
      (fun fe it => fe.storeSubdomainZeroMatProp it prop_name) fe3
    let fe5 := self2.boundaryIDs.foldl
      (fun fe it => fe.storeBoundaryZeroMatProp it prop_name) fe4
    let nqp := fe5.getMaxQps
    let preload_with_zero :=
      if nqp > preload_with_zero.length then resize nqp preload_with_zero
      else preload_with_zero
    let preload_with_zero := setAllToZero nqp preload_with_zero
    .ok (preload_with_zero,
      { self2 with
        _fe_problem := fe5
        materialData := self2.materialData.assign is_ad prop_name preload_with_zero })

/-- Source function `MaterialBase::getGenericZeroMaterialProperty<T, is_ad>(name)`. -/
def getGenericZeroMaterialProperty [Zero T] [Inhabited T] (is_ad : Bool)
    (self : MaterialBase T) (name : String) :
    Except MooseError (List T × MaterialBase T) :=
  let prop_name := name
  let prop_name :=
    if self._pars.have_parameter name then self._pars.get name else prop_name
  getGenericZeroMaterialPropertyByName is_ad self prop_name

/-- Source function `MaterialBase::getGenericZeroMaterialProperty<T, is_ad>()`, the anonymous form, over the
function-local static `zero`. -/
def getGenericZeroMaterialPropertyAnonymous [Zero T] [Inhabited T] (is_ad : Bool)
    (self : MaterialBase T) : Except MooseError (List T × MaterialBase T) :=
  let zero := self.zero is_ad
  let nqp := self._fe_problem.getMaxQps
  let zero := if nqp > zero.length then resize nqp zero else zero
  let zero := setAllToZero nqp zero
  .ok (zero, { self with zero := fun b => if b = is_ad then zero else self.zero b })

/-- Source function `MaterialBase::getZeroMaterialProperty<T>(args...)`: the argument pack is either empty
or one name. -/
def getZeroMaterialProperty [Zero T] [Inhabited T] (self : MaterialBase T)
    (args : Option String) : Except MooseError (List T × MaterialBase T) :=
  match args with
  | some name => getGenericZeroMaterialProperty false self name
  | none => getGenericZeroMaterialPropertyAnonymous false self

/-- Source function `MaterialBase::getZeroMaterialPropertyByName<T>(args...)`: the argument pack is one
name. -/
def getZeroMaterialPropertyByName [Zero T] [Inhabited T] (self : MaterialBase T)
    (prop_name : String) : Except MooseError (List T × MaterialBase T) :=
  getGenericZeroMaterialPropertyByName false self prop_name

/-- Source function `MaterialBase::getRequestedItems`. -/
def getRequestedItems (self : MaterialBase T) : Finset String := self._requested_props

/-- Source function `MaterialBase::getSuppliedItems`. -/
def getSuppliedItems (self : MaterialBase T) : Finset String := self._supplied_props

end MaterialBase

end Moose

namespace Moose

namespace MaterialBase

variable {T : Type}

/-- A run of anonymous zero requests, one per entry of the list, each made while
`getMaxQps()` reports that entry (the count may differ from call to call); the arrays the
calls return, in call order, and the state left behind. -/
def anonymousCalls [Zero T] [Inhabited T] (is_ad : Bool) :
    List Nat → MaterialBase T → Except MooseError (List (List T) × MaterialBase T)
  | [], self => .ok ([], self)
  | nqp :: rest, self =>
    match getGenericZeroMaterialPropertyAnonymous is_ad
        { self with _fe_problem := { self._fe_problem with maxQps := nqp } } with
    | .error e => .error e
    | .ok r =>
      match anonymousCalls is_ad rest r.2 with
      | .error e => .error e
      | .ok rs => .ok (r.1 :: rs.1, rs.2)

/-- An instance of a producer class: the object as constructed with the given suffix,
nothing supplied yet. -/
def instanceWithSuffix (self : MaterialBase T) (declare_suffix : String) : MaterialBase T :=
  { self with _declare_suffix := declare_suffix, _supplied_props := ∅ }

/-- The constructor of a producer class declaring each of its base property names, through
`declarePropertyByName` or `declareADPropertyByName` as the flag says. -/
def declareEach (is_ad : Bool) : List String → MaterialBase T → Except MooseError (MaterialBase T)
  | [], self => .ok self
  | prop_name :: rest, self =>
    match declareGenericPropertyByName is_ad self prop_name with
    | .error e => .error e
    | .ok r => declareEach is_ad rest r.2

/-- The names an instance has declared once its constructor has declared the base names:
its supplied items. -/
def namesDeclaredBy (is_ad : Bool) (self : MaterialBase T) (base_names : List String) :
    Finset String :=
  match declareEach is_ad base_names self with
  | .ok self1 => self1.getSuppliedItems
  | .error _ => ∅

/-- The name the specification gives for the indirection through the input parameters: the
value of the `MaterialPropertyName` parameter stored under the key when there is one, the
key itself otherwise. -/
def specResolvedName (pars : InputParameters) (p : String) : String :=
  match pars.materialPropertyNames.lookup p with
  | some value => value
  | none => p

/-- The function `MaterialBase::getGenericZeroMaterialPropertyByName<T, is_ad>` once more,
this time with the state in which the call leaves the object made explicit on both exits:
when a statement throws, the effects of the statements run before it stay, so the state at
the throw is the one built up to that statement. -/
def getGenericZeroMaterialPropertyByNameExit [Zero T] [Inhabited T] (is_ad : Bool)
    (self : MaterialBase T) (prop_name : String) :
    Except MooseError (List T) × MaterialBase T :=
  match self.checkExecutionStage with
  | .error e => (.error e, self)
  | .ok () =>
    let r := self.materialData.getGenericProperty is_ad prop_name
    let preload_with_zero := r.1
    let self1 : MaterialBase T :=
      { self with materialData := r.2
                  _requested_props := insert prop_name self._requested_props }
    let self2 := self1.registerPropName prop_name true .CURRENT
    let fe3 := self2._fe_problem.markMatPropRequested prop_name
    let fe4 := self2.blockIDs.foldl
      (fun fe it => fe.storeSubdomainZeroMatProp it prop_name) fe3
    let fe5 := self2.boundaryIDs.foldl
      (fun fe it => fe.storeBoundaryZeroMatProp it prop_name) fe4
    let nqp := fe5.getMaxQps
    let preload_with_zero :=
      if nqp > preload_with_zero.length then resize nqp preload_with_zero
      else preload_with_zero
    let preload_with_zero := setAllToZero nqp preload_with_zero
    (.ok preload_with_zero,
      { self2 with
        _fe_problem := fe5
        materialData := self2.materialData.assign is_ad prop_name preload_with_zero })

end MaterialBase

/-! ## `VectorCompositeFunctor` -/

/-- The six kinds of spatial argument a functor is evaluated at; their declarations are not
part of the excerpt, so they are type parameters. -/
structure SpatialArgs where
  ElemArg : Type
  ElemFromFaceArg : Type
  FaceArg : Type
  SingleSidedFaceArg : Type
  ElemQpArg : Type
  ElemSideQpArg : Type

/-- The three components of `libMesh::VectorValue<T>`. -/
structure VectorValue (T : Type) where
  x : T
  y : T
  z : T

/-- Modelled from the spec: `Moose::FunctorBase<T>` is declared outside the excerpt; what the
composite uses of it is the call operator `f(arg, state)`, one overload for each kind of
spatial argument, taking a state index. -/
structure FunctorBase (A : SpatialArgs) (T : Type) where
  callElemArg : A.ElemArg → Nat → T
  callElemFromFaceArg : A.ElemFromFaceArg → Nat → T
  callFaceArg : A.FaceArg → Nat → T
  callSingleSidedFaceArg : A.SingleSidedFaceArg → Nat → T
  callElemQpArg : A.ElemQpArg → Nat → T
  callElemSideQpArg : A.ElemSideQpArg → Nat → T

/-- The members of `VectorCompositeFunctor<T>`, as the constructor stores them. -/
structure VectorCompositeFunctor (A : SpatialArgs) (T : Type) where
  _x_comp : FunctorBase A T
  _y_comp : FunctorBase A T
  _z_comp : FunctorBase A T

namespace VectorCompositeFunctor

variable {A : SpatialArgs} {T : Type}

/-- Source function `evaluate(const ElemArg &, unsigned int)`. -/
def evaluateElemArg (f : VectorCompositeFunctor A T) (elem_arg : A.ElemArg) (state : Nat) :
    VectorValue T :=
  ⟨f._x_comp.callElemArg elem_arg state, f._y_comp.callElemArg elem_arg state,
    f._z_comp.callElemArg elem_arg state⟩

/-- Source function `evaluate(const ElemFromFaceArg &, unsigned int)`. -/
def evaluateElemFromFaceArg (f : VectorCompositeFunctor A T)
    (elem_from_face : A.ElemFromFaceArg) (state : Nat) : VectorValue T :=
  ⟨f._x_comp.callElemFromFaceArg elem_from_face state,
    f._y_comp.callElemFromFaceArg elem_from_face state,
    f._z_comp.callElemFromFaceArg elem_from_face state⟩

/-- Source function `evaluate(const FaceArg &, unsigned int)`. -/
def evaluateFaceArg (f : VectorCompositeFunctor A T) (face : A.FaceArg) (state : Nat) :
    VectorValue T :=
  ⟨f._x_comp.callFaceArg face state, f._y_comp.callFaceArg face state,
    f._z_comp.callFaceArg face state⟩

/-- Source function `evaluate(const SingleSidedFaceArg &, unsigned int)`. -/
def evaluateSingleSidedFaceArg (f : VectorCompositeFunctor A T)
    (ssf : A.SingleSidedFaceArg) (state : Nat) : VectorValue T :=
  ⟨f._x_comp.callSingleSidedFaceArg ssf state, f._y_comp.callSingleSidedFaceArg ssf state,
    f._z_comp.callSingleSidedFaceArg ssf state⟩

/-- Source function `evaluate(const ElemQpArg &, unsigned int)`. -/
def evaluateElemQpArg (f : VectorCompositeFunctor A T) (elem_qp : A.ElemQpArg) (state : Nat) :
    VectorValue T :=
  ⟨f._x_comp.callElemQpArg elem_qp state, f._y_comp.callElemQpArg elem_qp state,
    f._z_comp.callElemQpArg elem_qp state⟩

/-- Source function `evaluate(const ElemSideQpArg &, unsigned int)`. -/
def evaluateElemSideQpArg (f : VectorCompositeFunctor A T)
    (elem_side_qp : A.ElemSideQpArg) (state : Nat) : VectorValue T :=
  ⟨f._x_comp.callElemSideQpArg elem_side_qp state,
    f._y_comp.callElemSideQpArg elem_side_qp state,
    f._z_comp.callElemSideQpArg elem_side_qp state⟩

/-- The composite seen as the `FunctorBase<VectorValue<T>>` it derives from: its call
operator on each kind of argument is the matching `evaluate` overload. -/
def toFunctorBase (f : VectorCompositeFunctor A T) : FunctorBase A (VectorValue T) where
  callElemArg := f.evaluateElemArg
  callElemFromFaceArg := f.evaluateElemFromFaceArg
  callFaceArg := f.evaluateFaceArg
  callSingleSidedFaceArg := f.evaluateSingleSidedFaceArg
  callElemQpArg := f.evaluateElemQpArg
  callElemSideQpArg := f.evaluateElemSideQpArg

end VectorCompositeFunctor

/-! ## Concrete objects on which the statements below are exercised -/

namespace Sample

/-- A problem still in its construction stage, reporting three quadrature points. -/
def problem : FEProblemBase :=
  { startedInitialSetup := false
    maxQps := 3
    requestedMatProps := ∅
    subdomainMatPropNames := fun _ => ∅
    boundaryMatPropNames := fun _ => ∅
    subdomainZeroMatProps := fun _ => ∅
    boundaryZeroMatProps := fun _ => ∅ }

/-- A material with suffix "s", restricted to subdomains 1 and 2 and to boundary -1, whose
parameter "p" holds the property name "q"; the stored array of "k" has five entries. -/
def material : MaterialBase Int :=
  { _pars := ⟨[("p", "q")]⟩
    _declare_suffix := "s"
    blockIDs := [1, 2]
    boundaryIDs := [-1]
    _requested_props := ∅
    _supplied_props := ∅
    _props_to_flags := fun _ => ∅
    _fe_problem := problem
    materialData :=
      { ids := []
        props := fun g key =>
          if g = .CURRENT ∧ key = ("k", false) then [7, 8, 9, 10, 11] else [] }
    zero := fun _ => [] }

/-- The same material once the problem has started its initial setup. -/
def materialPastConstruction : MaterialBase Int :=
  { material with _fe_problem := { problem with startedInitialSetup := true } }

/-- The state the named zero request for "k" leaves behind on `material`. -/
def materialAfterZeroRequest : MaterialBase Int :=
  match MaterialBase.getGenericZeroMaterialPropertyByName false material "k" with
  | .ok r => r.2
  | .error _ => material

end Sample

end Moose

/-! ## Auxiliary facts about the zeroing loop, `resize` and the registration loops -/

namespace Moose

open MaterialBase

section lemmas

variable {T : Type}

theorem setAllToZero_succ [Zero T] (n : Nat) (a : List T) :
    setAllToZero (n + 1) a =
      (match (setAllToZero n a)[n]? with
       | some v => (setAllToZero n a).set n (MathUtils.mooseSetToZero v)
       | none => setAllToZero n a) := by
  simp [setAllToZero, List.range_succ, List.foldl_append]

theorem setAllToZero_length [Zero T] (n : Nat) (a : List T) :
    (setAllToZero n a).length = a.length := by
  induction n with
  | zero => simp [setAllToZero]
  | succ k ih =>
    rw [setAllToZero_succ]
    split <;> simp [ih]

theorem setAllToZero_getElem? [Zero T] (n : Nat) (a : List T) (i : Nat) :
    (setAllToZero n a)[i]? = if i < n then (a[i]?).map (fun _ => (0 : T)) else a[i]? := by
  induction n with
  | zero => simp [setAllToZero]
  | succ k ih =>
    rw [setAllToZero_succ]
    split
    · rename_i v hv
      rw [List.getElem?_set]
      by_cases hik : k = i
      · subst hik
        have hlt : k < (setAllToZero k a).length := by
          rcases List.getElem?_eq_some.mp hv with ⟨h, _⟩
          exact h
        have hlt2 : k < a.length := by rwa [setAllToZero_length] at hlt
        simp [hlt, MathUtils.mooseSetToZero, List.getElem?_eq_getElem hlt2]
      · simp only [hik, if_false, ih]
        by_cases h1 : i < k
        · have : i < k + 1 := by omega
          simp [h1, this]
        · have : ¬ i < k + 1 := by omega
          simp [h1, this]
    · rename_i hv
      rw [ih]
      have hl : a.length ≤ k := by
        have := List.getElem?_eq_none_iff.mp hv
        rwa [setAllToZero_length] at this
      by_cases h1 : i < k
      · have : i < k + 1 := by omega
        simp [h1, this]
      · by_cases h2 : i = k
        · subst h2
          simp [List.getElem?_eq_none hl]
        · have : ¬ i < k + 1 := by omega
          simp [h1, this]

theorem resize_length [Inhabited T] (n : Nat) (a : List T) : (resize n a).length = n := by
  simp [resize]; omega

/-- The array both zero getters leave behind: grown to `nqp` when shorter, then zeroed on
the first `nqp` entries. -/
theorem zeroed_length [Zero T] [Inhabited T] (nqp : Nat) (a : List T) :
    (setAllToZero nqp (if nqp > a.length then resize nqp a else a)).length
      = max a.length nqp := by
  rw [setAllToZero_length]
  split
  · rw [resize_length]; omega
  · omega

theorem zeroed_getElem? [Zero T] [Inhabited T] (nqp : Nat) (a : List T) (qp : Nat)
    (h : qp < nqp) :
    (setAllToZero nqp (if nqp > a.length then resize nqp a else a))[qp]? = some 0 := by
  rw [setAllToZero_getElem?, if_pos h]
  have hl : qp < (if nqp > a.length then resize nqp a else a).length := by
    split
    · rw [resize_length]; exact h
    · omega
  rw [List.getElem?_eq_getElem hl]
  rfl

theorem foldl_storeSubdomainMatPropName (l : List SubdomainID) (name : String)
    (fe : FEProblemBase) :
    l.foldl (fun fe b => fe.storeSubdomainMatPropName b name) fe =
      { fe with subdomainMatPropNames := fun b =>
          if b ∈ l then insert name (fe.subdomainMatPropNames b)
          else fe.subdomainMatPropNames b } := by
  induction l generalizing fe with
  | nil => simp
  | cons x xs ih =>
    rw [List.foldl_cons, ih]
    simp only [FEProblemBase.storeSubdomainMatPropName, List.mem_cons]
    congr 1
    funext b
    by_cases h1 : b = x <;> by_cases h2 : b ∈ xs <;> simp [h1, h2]

theorem foldl_storeBoundaryMatPropName (l : List BoundaryID) (name : String)
    (fe : FEProblemBase) :
    l.foldl (fun fe b => fe.storeBoundaryMatPropName b name) fe =
      { fe with boundaryMatPropNames := fun b =>
          if b ∈ l then insert name (fe.boundaryMatPropNames b)
          else fe.boundaryMatPropNames b } := by
  induction l generalizing fe with
  | nil => simp
  | cons x xs ih =>
    rw [List.foldl_cons, ih]
    simp only [FEProblemBase.storeBoundaryMatPropName, List.mem_cons]
    congr 1
    funext b
    by_cases h1 : b = x <;> by_cases h2 : b ∈ xs <;> simp [h1, h2]

theorem foldl_storeSubdomainZeroMatProp (l : List SubdomainID) (name : String)
    (fe : FEProblemBase) :
    l.foldl (fun fe b => fe.storeSubdomainZeroMatProp b name) fe =
      { fe with subdomainZeroMatProps := fun b =>
          if b ∈ l then insert name (fe.subdomainZeroMatProps b)
          else fe.subdomainZeroMatProps b } := by
  induction l generalizing fe with
  | nil => simp
  | cons x xs ih =>
    rw [List.foldl_cons, ih]
    simp only [FEProblemBase.storeSubdomainZeroMatProp, List.mem_cons]
    congr 1
    funext b
    by_cases h1 : b = x <;> by_cases h2 : b ∈ xs <;> simp [h1, h2]

theorem foldl_storeBoundaryZeroMatProp (l : List BoundaryID) (name : String)
    (fe : FEProblemBase) :
    l.foldl (fun fe b => fe.storeBoundaryZeroMatProp b name) fe =
      { fe with boundaryZeroMatProps := fun b =>
          if b ∈ l then insert name (fe.boundaryZeroMatProps b)
          else fe.boundaryZeroMatProps b } := by
  induction l generalizing fe with
  | nil => simp
  | cons x xs ih =>
    rw [List.foldl_cons, ih]
    simp only [FEProblemBase.storeBoundaryZeroMatProp, List.mem_cons]
    congr 1
    funext b
    by_cases h1 : b = x <;> by_cases h2 : b ∈ xs <;> simp [h1, h2]

/-- What a successful named zero request leaves behind, field by field. -/
theorem getGenericZeroMaterialPropertyByName_ok [Zero T] [Inhabited T] (is_ad : Bool)
    (self self1 : MaterialBase T) (prop_name : String) (arr : List T)
    (h : getGenericZeroMaterialPropertyByName is_ad self prop_name = .ok (arr, self1)) :
    self._fe_problem.startedInitialSetup = false ∧
    arr = setAllToZero self._fe_problem.maxQps
      (if self._fe_problem.maxQps > (self.materialData.props .CURRENT (prop_name, is_ad)).length
       then resize self._fe_problem.maxQps (self.materialData.props .CURRENT (prop_name, is_ad))
       else self.materialData.props .CURRENT (prop_name, is_ad)) ∧
    self1.materialData.props .CURRENT (prop_name, is_ad) = arr ∧
    self1._requested_props = insert prop_name self._requested_props ∧
    self1._fe_problem.subdomainZeroMatProps =
      (fun b => if b ∈ self.blockIDs then insert prop_name (self._fe_problem.subdomainZeroMatProps b)
        else self._fe_problem.subdomainZeroMatProps b) ∧
    self1._fe_problem.boundaryZeroMatProps =
      (fun b => if b ∈ self.boundaryIDs
        then insert prop_name (self._fe_problem.boundaryZeroMatProps b)
        else self._fe_problem.boundaryZeroMatProps b) := by
  unfold getGenericZeroMaterialPropertyByName at h
  cases hs : self._fe_problem.startedInitialSetup with
  | true => simp [checkExecutionStage, hs] at h
  | false =>
    simp only [checkExecutionStage, hs, registerPropName, foldl_storeSubdomainMatPropName,
      foldl_storeBoundaryMatPropName, foldl_storeSubdomainZeroMatProp,
      foldl_storeBoundaryZeroMatProp, FEProblemBase.markMatPropRequested,
      FEProblemBase.getMaxQps, MaterialData.getGenericProperty, MaterialData.assign,
      Except.ok.injEq, Prod.mk.injEq, if_true, if_false, Bool.false_eq_true] at h
    obtain ⟨h1, h2⟩ := h
    subst h2
    refine ⟨rfl, ?_, ?_, ?_, ?_, ?_⟩
    · simpa using h1.symm
    · simpa using h1
    · simp
    · simp
    · simp

end lemmas

end Moose

/-! ## The zero-fallback arrays -/

namespace Moose

open MaterialBase

/-- Claim C1: whatever the property name, the prior state of the store and the maximum
quadrature-point count `n`, a successful call of `getGenericZeroMaterialPropertyByName`
returns an array with at least `n` entries that holds the zero of the type at every index
`0..n-1`; the array is the one the store holds for the name afterwards. -/
theorem zero_request_by_name_is_zero_on_all_qps {T : Type} [Zero T] [Inhabited T]
    (is_ad : Bool) (self self1 : MaterialBase T) (prop_name : String) (arr : List T)
    (h : getGenericZeroMaterialPropertyByName is_ad self prop_name = .ok (arr, self1)) :
    self._fe_problem.getMaxQps ≤ arr.length ∧
    (∀ qp, qp < self._fe_problem.getMaxQps → arr[qp]? = some 0) ∧
    self1.materialData.props .CURRENT (prop_name, is_ad) = arr := by
  obtain ⟨_, harr, hstore, _⟩ := getGenericZeroMaterialPropertyByName_ok is_ad self self1
    prop_name arr h
  refine ⟨?_, ?_, hstore⟩
  · rw [harr, zeroed_length]
    exact Nat.le_max_right _ _
  · intro qp hqp
    rw [harr]
    exact zeroed_getElem? _ _ qp hqp

/-- Witness for C1: on the sample material, whose array for "k" held five non-zero entries
and whose problem reports three quadrature points, the request succeeds and the first three
entries of the returned array are zero. -/
theorem zero_request_by_name_is_zero_on_all_qps_witness :
    getGenericZeroMaterialPropertyByName false Sample.material "k"
        = .ok ([0, 0, 0, 10, 11], Sample.materialAfterZeroRequest) ∧
    (Sample.material._fe_problem.getMaxQps ≤ ([0, 0, 0, 10, 11] : List Int).length ∧
     (∀ qp, qp < Sample.material._fe_problem.getMaxQps →
        ([0, 0, 0, 10, 11] : List Int)[qp]? = some 0) ∧
     Sample.materialAfterZeroRequest.materialData.props .CURRENT ("k", false)
        = [0, 0, 0, 10, 11]) :=
  ⟨rfl, zero_request_by_name_is_zero_on_all_qps false Sample.material
    Sample.materialAfterZeroRequest "k" [0, 0, 0, 10, 11] rfl⟩

end Moose

namespace Moose

open MaterialBase

section anonymous

variable {T : Type}

theorem zeroed_all_zero [Zero T] [Inhabited T] (nqp : Nat) (a : List T)
    (h : ∀ x ∈ a, x = 0) :
    ∀ x ∈ setAllToZero nqp (if nqp > a.length then resize nqp a else a), x = 0 := by
  intro x hx
  obtain ⟨i, hi⟩ := List.mem_iff_getElem?.mp hx
  by_cases hin : i < nqp
  · rw [zeroed_getElem? nqp a i hin] at hi
    exact (Option.some.inj hi).symm
  · rw [setAllToZero_getElem?, if_neg hin] at hi
    split at hi
    · have hl : (resize nqp a).length ≤ i := by rw [resize_length]; omega
      rw [List.getElem?_eq_none hl] at hi
      cases hi
    · exact h x (List.mem_iff_getElem?.mpr ⟨i, hi⟩)

theorem getGenericZeroMaterialPropertyAnonymous_eq [Zero T] [Inhabited T] (is_ad : Bool)
    (self : MaterialBase T) :
    getGenericZeroMaterialPropertyAnonymous is_ad self =
      .ok (setAllToZero self._fe_problem.maxQps
            (if self._fe_problem.maxQps > (self.zero is_ad).length
             then resize self._fe_problem.maxQps (self.zero is_ad) else self.zero is_ad),
           { self with
             zero := fun b =>
               if b = is_ad then
                 setAllToZero self._fe_problem.maxQps
                   (if self._fe_problem.maxQps > (self.zero is_ad).length
                    then resize self._fe_problem.maxQps (self.zero is_ad) else self.zero is_ad)
               else self.zero b }) := rfl

theorem anonymousCalls_invariant [Zero T] [Inhabited T] (is_ad : Bool) (ns : List Nat) :
    ∀ (self : MaterialBase T), (∀ x ∈ self.zero is_ad, x = 0) →
      ∃ rets self1, anonymousCalls is_ad ns self = .ok (rets, self1) ∧
        rets.length = ns.length ∧
        ∀ i arr, rets[i]? = some arr →
          (∀ x ∈ arr, x = 0) ∧
          arr.length = (ns.take (i + 1)).foldl max (self.zero is_ad).length := by
  induction ns with
  | nil =>
    intro self _
    exact ⟨[], self, rfl, rfl, by simp⟩
  | cons n rest ih =>
    intro self hz
    have hz1 := zeroed_all_zero n (self.zero is_ad) hz
    obtain ⟨rets, self1, hrun, hlen, hall⟩ := ih
      { self with
        _fe_problem := { self._fe_problem with maxQps := n }
        zero := fun b =>
          if b = is_ad then
            setAllToZero n (if n > (self.zero is_ad).length
              then resize n (self.zero is_ad) else self.zero is_ad)
          else self.zero b }
      (by simpa using hz1)
    refine ⟨setAllToZero n (if n > (self.zero is_ad).length
      then resize n (self.zero is_ad) else self.zero is_ad) :: rets, self1, ?_, ?_, ?_⟩
    · simp only [anonymousCalls, getGenericZeroMaterialPropertyAnonymous_eq]
      rw [hrun]
    · simp [hlen]
    · intro i arr hi
      cases i with
      | zero =>
        simp only [List.getElem?_cons_zero, Option.some.injEq] at hi
        subst hi
        refine ⟨hz1, ?_⟩
        simp [zeroed_length]
      | succ j =>
        simp only [List.getElem?_cons_succ] at hi
        obtain ⟨h1, h2⟩ := hall j arr hi
        refine ⟨h1, ?_⟩
        rw [h2]
        simp [zeroed_length]

end anonymous

/-- Claim C2: starting from the empty shared array, after every finite sequence of anonymous
`getGenericZeroMaterialProperty()` calls made with arbitrary maximum quadrature-point
counts, every call succeeds, every entry of the array each call returns is the zero of the
type, and the length of that array is the largest count seen up to and including that
call. -/
theorem anonymous_zero_array_always_zero {T : Type} [Zero T] [Inhabited T] (is_ad : Bool)
    (self : MaterialBase T) (ns : List Nat) (h : self.zero is_ad = []) :
    ∃ rets self1, anonymousCalls is_ad ns self = .ok (rets, self1) ∧
      rets.length = ns.length ∧
      ∀ i arr, rets[i]? = some arr →
        (∀ x ∈ arr, x = 0) ∧ arr.length = (ns.take (i + 1)).foldl max 0 := by
  have hz : ∀ x ∈ self.zero is_ad, x = 0 := by simp [h]
  obtain ⟨rets, self1, hrun, hlen, hall⟩ := anonymousCalls_invariant is_ad ns self hz
  refine ⟨rets, self1, hrun, hlen, ?_⟩
  intro i arr hi
  have := hall i arr hi
  simpa [h] using this

/-- Witness for C2: three anonymous calls with counts 2, 5 and 3 on the sample material,
whose shared array is empty. -/
theorem anonymous_zero_array_always_zero_witness :
    Sample.material.zero false = [] ∧
    ∃ rets self1, anonymousCalls false [2, 5, 3] Sample.material = .ok (rets, self1) ∧
      rets.length = [2, 5, 3].length ∧
      ∀ i arr, rets[i]? = some arr →
        (∀ x ∈ arr, x = 0) ∧ arr.length = (([2, 5, 3] : List Nat).take (i + 1)).foldl max 0 :=
  ⟨rfl, anonymous_zero_array_always_zero false Sample.material [2, 5, 3] rfl⟩

/-- Claim C3: zero-fallback arrays never shrink.  For the named form, a successful call
leaves the array of the name with length `max s n`, where `s` is its length before the call
and `n` the maximum quadrature-point count; the anonymous form always succeeds and leaves
the shared array with length `max s n`; in both forms the new length is at least `s`. -/
theorem zero_arrays_never_shrink {T : Type} [Zero T] [Inhabited T] (is_ad : Bool)
    (self : MaterialBase T) (prop_name : String) :
    (∀ arr self1,
      getGenericZeroMaterialPropertyByName is_ad self prop_name = .ok (arr, self1) →
        arr.length = max (self.materialData.props .CURRENT (prop_name, is_ad)).length
          self._fe_problem.getMaxQps ∧
        (self1.materialData.props .CURRENT (prop_name, is_ad)).length = arr.length ∧
        (self.materialData.props .CURRENT (prop_name, is_ad)).length ≤ arr.length) ∧
    (∃ arr self1,
      getGenericZeroMaterialPropertyAnonymous is_ad self = .ok (arr, self1) ∧
        arr.length = max (self.zero is_ad).length self._fe_problem.getMaxQps ∧
        (self1.zero is_ad).length = arr.length ∧
        (self.zero is_ad).length ≤ arr.length) := by
  constructor
  · intro arr self1 h
    obtain ⟨_, harr, hstore, _⟩ := getGenericZeroMaterialPropertyByName_ok is_ad self self1
      prop_name arr h
    have hl : arr.length = max (self.materialData.props .CURRENT (prop_name, is_ad)).length
        self._fe_problem.getMaxQps := by
      rw [harr, zeroed_length]; rfl
    refine ⟨hl, by rw [hstore], ?_⟩
    rw [hl]
    exact Nat.le_max_left _ _
  · refine ⟨_, _, getGenericZeroMaterialPropertyAnonymous_eq is_ad self, ?_, ?_, ?_⟩
    · rw [zeroed_length]; rfl
    · simp
    · rw [zeroed_length]
      exact Nat.le_max_left _ _

end Moose

namespace Moose

open MaterialBase

/-- Witness for C3: on the sample material the array of "k" had five entries and the problem
reports three quadrature points; the named request succeeds and the array keeps five. -/
theorem zero_arrays_never_shrink_witness :
    getGenericZeroMaterialPropertyByName false Sample.material "k"
        = .ok ([0, 0, 0, 10, 11], Sample.materialAfterZeroRequest) ∧
    (([0, 0, 0, 10, 11] : List Int).length
        = max (Sample.material.materialData.props .CURRENT ("k", false)).length
            Sample.material._fe_problem.getMaxQps ∧
     (Sample.materialAfterZeroRequest.materialData.props .CURRENT ("k", false)).length
        = ([0, 0, 0, 10, 11] : List Int).length ∧
     (Sample.material.materialData.props .CURRENT ("k", false)).length
        ≤ ([0, 0, 0, 10, 11] : List Int).length) :=
  ⟨rfl, (zero_arrays_never_shrink false Sample.material "k").1 [0, 0, 0, 10, 11]
    Sample.materialAfterZeroRequest rfl⟩

/-! ## The execution-stage check -/

/-- Claim C4, refuted as stated: on the sample material once the problem has started its
initial setup, the anonymous zero getter and the six declare entry points all return
normally; none of them is rejected. -/
theorem entry_points_not_all_rejected_past_construction :
    Sample.materialPastConstruction._fe_problem.startedInitialSetup = true ∧
    (getGenericZeroMaterialPropertyAnonymous false Sample.materialPastConstruction).toBool
      = true ∧
    (declareProperty Sample.materialPastConstruction "p").toBool = true ∧
    (declarePropertyByName Sample.materialPastConstruction "k").toBool = true ∧
    (declareADProperty Sample.materialPastConstruction "p").toBool = true ∧
    (declareADPropertyByName Sample.materialPastConstruction "k").toBool = true ∧
    (declarePropertyOld Sample.materialPastConstruction "k").toBool = true ∧
    (declarePropertyOlder Sample.materialPastConstruction "k").toBool = true :=
  ⟨rfl, rfl, rfl, rfl, rfl, rfl, rfl, rfl⟩

/-- Claim C4, amended: once the problem has left the construction stage, the entry points
that reach `getGenericZeroMaterialPropertyByName` (the named zero getters and their
backward-compatible aliases called with a name) are rejected with the execution-stage
error; the anonymous zero getter and the six declare entry points make no such check and
return normally. -/
theorem named_zero_requests_rejected_past_construction {T : Type} [Zero T] [Inhabited T]
    (is_ad : Bool) (self : MaterialBase T) (name : String)
    (h : self._fe_problem.startedInitialSetup = true) :
    getGenericZeroMaterialPropertyByName is_ad self name = .error .pastConstructionStage ∧
    getGenericZeroMaterialProperty is_ad self name = .error .pastConstructionStage ∧
    getZeroMaterialPropertyByName self name = .error .pastConstructionStage ∧
    getZeroMaterialProperty self (some name) = .error .pastConstructionStage ∧
    (getGenericZeroMaterialPropertyAnonymous is_ad self).toBool = true ∧
    (getZeroMaterialProperty self none).toBool = true ∧
    (declareProperty self name).toBool = true ∧
    (declarePropertyByName self name).toBool = true ∧
    (declareADProperty self name).toBool = true ∧
    (declareADPropertyByName self name).toBool = true ∧
    (declarePropertyOld self name).toBool = true ∧
    (declarePropertyOlder self name).toBool = true := by
  have hby : ∀ (b : Bool) (n : String),
      getGenericZeroMaterialPropertyByName b self n = .error .pastConstructionStage := by
    intro b n
    simp [getGenericZeroMaterialPropertyByName, checkExecutionStage, h]
  refine ⟨hby _ _, hby _ _, hby _ _, hby _ _, rfl, rfl, rfl, rfl, rfl, rfl, rfl, rfl⟩

/-- Witness for C4 as amended, on the sample material past its construction stage. -/
theorem named_zero_requests_rejected_past_construction_witness :
    Sample.materialPastConstruction._fe_problem.startedInitialSetup = true ∧
    getGenericZeroMaterialPropertyByName false Sample.materialPastConstruction "k"
      = .error .pastConstructionStage :=
  ⟨rfl, (named_zero_requests_rejected_past_construction false
    Sample.materialPastConstruction "k" rfl).1⟩

/-! ## The declare suffix -/

/-- Claim C5, evaluated where the code departs from it: on the sample material, whose suffix
is "s", `declarePropertyOld` and `declarePropertyOlder` called with "k" register and declare
the name "k" as given, not "k_s"; `declarePropertyByName` and `declareADPropertyByName`
called with "k" register and declare "k_s". -/
theorem declare_old_and_older_skip_the_suffix :
    Sample.material._declare_suffix = "s" ∧
    (declarePropertyOld Sample.material "k").toOption.map
        (fun r => (r.2.getSuppliedItems, r.2.materialData.ids))
      = some ({"k"}, [("k", false)]) ∧
    (declarePropertyOlder Sample.material "k").toOption.map
        (fun r => (r.2.getSuppliedItems, r.2.materialData.ids))
      = some ({"k"}, [("k", false)]) ∧
    (declarePropertyByName Sample.material "k").toOption.map
        (fun r => (r.2.getSuppliedItems, r.2.materialData.ids))
      = some ({"k_s"}, [("k_s", false)]) ∧
    (declareADPropertyByName Sample.material "k").toOption.map
        (fun r => (r.2.getSuppliedItems, r.2.materialData.ids))
      = some ({"k_s"}, [("k_s", true)]) ∧
    MooseUtils.join ["k", "s"] "_" = "k_s" := by
  decide

end Moose

namespace Moose

open MaterialBase

section suffix

variable {T : Type}

theorem join_pair (a b delimiter : String) :
    MooseUtils.join [a, b] delimiter = a ++ delimiter ++ b := rfl

/-- The name the two suffixing entry points hand to the registration and the store differs
between two different suffixes, for one and the same base name. -/
theorem suffixed_name_ne (name s t : String) (hst : s ≠ t) :
    (if s.isEmpty then name else MooseUtils.join [name, s] "_") ≠
      (if t.isEmpty then name else MooseUtils.join [name, t] "_") := by
  have hlen : ∀ u : String, name ≠ name ++ "_" ++ u := by
    intro u hu
    have := congrArg String.length hu
    simp only [String.length_append] at this
    have h1 : ("_" : String).length = 1 := rfl
    omega
  by_cases hs : s.isEmpty = true <;> by_cases ht : t.isEmpty = true
  · exact absurd (((String.isEmpty_iff s).mp hs).trans ((String.isEmpty_iff t).mp ht).symm) hst
  · simp only [hs, ht, if_true, if_false, join_pair]
    exact hlen t
  · simp only [hs, ht, if_true, if_false, join_pair]
    exact fun h => hlen s h.symm
  · simp only [hs, ht, if_false, join_pair]
    intro h
    apply hst
    have hd := String.ext_iff.mp h
    simp only [String.data_append] at hd
    exact String.ext (List.append_cancel_left hd)

theorem declareGenericPropertyByName_supplied (is_ad : Bool) (self : MaterialBase T)
    (name : String) :
    ∃ r, declareGenericPropertyByName is_ad self name = .ok r ∧
      r.2._supplied_props =
        insert (if self._declare_suffix.isEmpty then name
                else MooseUtils.join [name, self._declare_suffix] "_") self._supplied_props := by
  cases is_ad
  · exact ⟨_, rfl, rfl⟩
  · exact ⟨_, rfl, rfl⟩

theorem namesDeclaredBy_single (is_ad : Bool) (self : MaterialBase T) (s name : String) :
    namesDeclaredBy is_ad (instanceWithSuffix self s) [name] =
      {if s.isEmpty then name else MooseUtils.join [name, s] "_"} := by
  obtain ⟨r, hr, hsup⟩ := declareGenericPropertyByName_supplied is_ad
    (instanceWithSuffix self s) name
  simp only [namesDeclaredBy, declareEach, hr, getSuppliedItems, hsup]
  simp [instanceWithSuffix]

end suffix

/-- Claim C6, refuted as stated: the class declares the base names "a" and "a_b"; the
instance with suffix "b_c" and the instance with suffix "c" both declare "a_b_c" (from "a"
and from "a_b"), although the suffixes differ. -/
theorem different_suffixes_can_collide :
    ("b_c" : String) ≠ "c" ∧
    "a_b_c" ∈ namesDeclaredBy false (instanceWithSuffix Sample.material "b_c") ["a", "a_b"] ∧
    "a_b_c" ∈ namesDeclaredBy false (instanceWithSuffix Sample.material "c") ["a", "a_b"] ∧
    "a_b_c" ∈ namesDeclaredBy true (instanceWithSuffix Sample.material "b_c") ["a", "a_b"] ∧
    "a_b_c" ∈ namesDeclaredBy true (instanceWithSuffix Sample.material "c") ["a", "a_b"] := by
  decide

/-- Claim C6, amended: for every base property name and every two instances configured with
different suffixes `s` and `t` (one of them may be empty), the name the instance with suffix
`s` declares for that base name, through `declarePropertyByName` or
`declareADPropertyByName`, is not the name the instance with suffix `t` declares for the
same base name. -/
theorem different_suffixes_separate_one_base_name {T : Type} (is_ad : Bool)
    (self : MaterialBase T) (name s t : String) (hst : s ≠ t) :
    Disjoint (namesDeclaredBy is_ad (instanceWithSuffix self s) [name])
      (namesDeclaredBy is_ad (instanceWithSuffix self t) [name]) := by
  rw [namesDeclaredBy_single, namesDeclaredBy_single, Finset.disjoint_singleton]
  exact suffixed_name_ne name s t hst

/-- Witness for C6 as amended: the base name "a" under the suffixes "b_c" and "c". -/
theorem different_suffixes_separate_one_base_name_witness :
    ("b_c" : String) ≠ "c" ∧
    Disjoint (namesDeclaredBy false (instanceWithSuffix Sample.material "b_c") ["a"])
      (namesDeclaredBy false (instanceWithSuffix Sample.material "c") ["a"]) :=
  ⟨by decide, different_suffixes_separate_one_base_name false Sample.material "a" "b_c" "c"
    (by decide)⟩

/-! ## Registration by the named zero request -/

/-- Claim C7: a successful call of `getGenericZeroMaterialPropertyByName(name)` leaves the
requested set equal to the previous one with `name` added, and adds `name` to the
zero-fallback names of exactly the subdomains in `blockIDs()` and exactly the boundaries in
`boundaryIDs()`: the registration of every such region gains `name`, that of every other
region is what it was. -/
theorem zero_request_by_name_registers {T : Type} [Zero T] [Inhabited T] (is_ad : Bool)
    (self self1 : MaterialBase T) (name : String) (arr : List T)
    (h : getGenericZeroMaterialPropertyByName is_ad self name = .ok (arr, self1)) :
    self1.getRequestedItems = insert name self.getRequestedItems ∧
    (∀ b, b ∈ self.blockIDs →
      self1._fe_problem.subdomainZeroMatProps b
        = insert name (self._fe_problem.subdomainZeroMatProps b)) ∧
    (∀ b, b ∉ self.blockIDs →
      self1._fe_problem.subdomainZeroMatProps b = self._fe_problem.subdomainZeroMatProps b) ∧
    (∀ b, b ∈ self.boundaryIDs →
      self1._fe_problem.boundaryZeroMatProps b
        = insert name (self._fe_problem.boundaryZeroMatProps b)) ∧
    (∀ b, b ∉ self.boundaryIDs →
      self1._fe_problem.boundaryZeroMatProps b = self._fe_problem.boundaryZeroMatProps b) := by
  obtain ⟨_, _, _, hreq, hsub, hbnd⟩ := getGenericZeroMaterialPropertyByName_ok is_ad self
    self1 name arr h
  refine ⟨hreq, ?_, ?_, ?_, ?_⟩
  · intro b hb; rw [hsub]; simp [hb]
  · intro b hb; rw [hsub]; simp [hb]
  · intro b hb; rw [hbnd]; simp [hb]
  · intro b hb; rw [hbnd]; simp [hb]

/-- Witness for C7: the sample material is restricted to subdomains 1 and 2 and to boundary
-1; its request for "k" succeeds. -/
theorem zero_request_by_name_registers_witness :
    getGenericZeroMaterialPropertyByName false Sample.material "k"
        = .ok ([0, 0, 0, 10, 11], Sample.materialAfterZeroRequest) ∧
    Sample.materialAfterZeroRequest.getRequestedItems = {"k"} ∧
    Sample.materialAfterZeroRequest._fe_problem.subdomainZeroMatProps 2 = {"k"} ∧
    Sample.materialAfterZeroRequest._fe_problem.subdomainZeroMatProps 3 = ∅ ∧
    Sample.materialAfterZeroRequest._fe_problem.boundaryZeroMatProps (-1) = {"k"} ∧
    Sample.materialAfterZeroRequest._fe_problem.boundaryZeroMatProps 1 = ∅ := by
  have h := zero_request_by_name_registers false Sample.material
    Sample.materialAfterZeroRequest "k" [0, 0, 0, 10, 11] rfl
  refine ⟨rfl, h.1, ?_, ?_, ?_, ?_⟩
  · exact h.2.1 2 (by decide)
  · exact h.2.2.1 3 (by decide)
  · exact h.2.2.2.1 (-1) (by decide)
  · exact h.2.2.2.2 1 (by decide)

end Moose

/-! ## Forwarding entry points -/

namespace Moose

open MaterialBase

/-- Claim C8: for every string `p`, `declareProperty(p)`, `declareADProperty(p)` and
`getGenericZeroMaterialProperty(p)` are their ByName counterparts called with the value of
the `MaterialPropertyName` parameter stored under the key `p` when there is such a
parameter, and with `p` itself otherwise: same result, same state. -/
theorem name_indirection_through_parameters {T : Type} [Zero T] [Inhabited T] (is_ad : Bool)
    (self : MaterialBase T) (p : String) :
    declareProperty self p = declarePropertyByName self (specResolvedName self._pars p) ∧
    declareADProperty self p = declareADPropertyByName self (specResolvedName self._pars p) ∧
    getGenericZeroMaterialProperty is_ad self p
      = getGenericZeroMaterialPropertyByName is_ad self (specResolvedName self._pars p) := by
  have hname : (if self._pars.have_parameter p then self._pars.get p else p)
      = specResolvedName self._pars p := by
    unfold InputParameters.have_parameter InputParameters.get specResolvedName
    cases self._pars.materialPropertyNames.lookup p <;> simp
  refine ⟨?_, ?_, ?_⟩
  · simp only [declareProperty, hname]
  · simp only [declareADProperty, hname]
  · simp only [getGenericZeroMaterialProperty, hname]

/-- Claim C9: the generic and the backward-compatible entry points are pure forwards, with
the same result and the same effect on the state: `declareGenericProperty<T, is_ad>` and
`declareGenericPropertyByName<T, is_ad>` are the AD declare when `is_ad` is true and the
plain declare when it is false, and `getZeroMaterialProperty<T>` and
`getZeroMaterialPropertyByName<T>` are the generic zero getters at `is_ad = false` on the
same arguments (a name, or none for the anonymous form). -/
theorem generic_and_compatibility_entry_points_forward {T : Type} [Zero T] [Inhabited T]
    (self : MaterialBase T) (name : String) :
    declareGenericProperty true self name = declareADProperty self name ∧
    declareGenericProperty false self name = declareProperty self name ∧
    declareGenericPropertyByName true self name = declareADPropertyByName self name ∧
    declareGenericPropertyByName false self name = declarePropertyByName self name ∧
    getZeroMaterialProperty self (some name) = getGenericZeroMaterialProperty false self name ∧
    getZeroMaterialProperty self none = getGenericZeroMaterialPropertyAnonymous false self ∧
    getZeroMaterialPropertyByName self name
      = getGenericZeroMaterialPropertyByName false self name :=
  ⟨rfl, rfl, rfl, rfl, rfl, rfl, rfl⟩

/-! ## The composite vector functor -/

/-- Claim C10: for each of the six kinds of spatial argument, every argument `a` and every
state index `s`, `evaluate(a, s)` of a `VectorCompositeFunctor` is the vector
`(x_comp(a, s), y_comp(a, s), z_comp(a, s))`, each component functor called with the same
argument and the same state. -/
theorem vector_composite_evaluates_componentwise {A : SpatialArgs} {T : Type}
    (f : VectorCompositeFunctor A T) (s : Nat) :
    (∀ a, f.evaluateElemArg a s
      = ⟨f._x_comp.callElemArg a s, f._y_comp.callElemArg a s, f._z_comp.callElemArg a s⟩) ∧
    (∀ a, f.evaluateElemFromFaceArg a s
      = ⟨f._x_comp.callElemFromFaceArg a s, f._y_comp.callElemFromFaceArg a s,
          f._z_comp.callElemFromFaceArg a s⟩) ∧
    (∀ a, f.evaluateFaceArg a s
      = ⟨f._x_comp.callFaceArg a s, f._y_comp.callFaceArg a s, f._z_comp.callFaceArg a s⟩) ∧
    (∀ a, f.evaluateSingleSidedFaceArg a s
      = ⟨f._x_comp.callSingleSidedFaceArg a s, f._y_comp.callSingleSidedFaceArg a s,
          f._z_comp.callSingleSidedFaceArg a s⟩) ∧
    (∀ a, f.evaluateElemQpArg a s
      = ⟨f._x_comp.callElemQpArg a s, f._y_comp.callElemQpArg a s,
          f._z_comp.callElemQpArg a s⟩) ∧
    (∀ a, f.evaluateElemSideQpArg a s
      = ⟨f._x_comp.callElemSideQpArg a s, f._y_comp.callElemSideQpArg a s,
          f._z_comp.callElemSideQpArg a s⟩) :=
  ⟨fun _ => rfl, fun _ => rfl, fun _ => rfl, fun _ => rfl, fun _ => rfl, fun _ => rfl⟩

end Moose

/-! ## Rejection of the named zero request -/

namespace Moose

open MaterialBase

/-- The two embeddings of the named zero request agree: same error, or same array and same
state. -/
theorem getGenericZeroMaterialPropertyByNameExit_agrees {T : Type} [Zero T] [Inhabited T]
    (is_ad : Bool) (self : MaterialBase T) (prop_name : String) :
    getGenericZeroMaterialPropertyByName is_ad self prop_name =
      (match getGenericZeroMaterialPropertyByNameExit is_ad self prop_name with
       | (.ok arr, self1) => .ok (arr, self1)
       | (.error e, _) => .error e) := by
  unfold getGenericZeroMaterialPropertyByName getGenericZeroMaterialPropertyByNameExit
  cases hs : self._fe_problem.startedInitialSetup <;> simp [checkExecutionStage, hs]

/-- Claim C11: rejection of the named zero request is atomic.  Called once the problem has
left the construction stage, `getGenericZeroMaterialPropertyByName(name)` fails in
`checkExecutionStage`, its first statement, and the object is left exactly as it was: in
particular the requested set, the zero-fallback names of every subdomain and of every
boundary, and the stored array of `name` (length and contents) are those from before the
call. -/
theorem rejected_zero_request_changes_nothing {T : Type} [Zero T] [Inhabited T]
    (is_ad : Bool) (self : MaterialBase T) (name : String)
    (h : self._fe_problem.startedInitialSetup = true) :
    getGenericZeroMaterialPropertyByName is_ad self name = .error .pastConstructionStage ∧
    (getGenericZeroMaterialPropertyByNameExit is_ad self name).1
      = .error .pastConstructionStage ∧
    (getGenericZeroMaterialPropertyByNameExit is_ad self name).2 = self ∧
    (getGenericZeroMaterialPropertyByNameExit is_ad self name).2.getRequestedItems
      = self.getRequestedItems ∧
    (getGenericZeroMaterialPropertyByNameExit is_ad self name).2._fe_problem.subdomainZeroMatProps
      = self._fe_problem.subdomainZeroMatProps ∧
    (getGenericZeroMaterialPropertyByNameExit is_ad self name).2._fe_problem.boundaryZeroMatProps
      = self._fe_problem.boundaryZeroMatProps ∧
    (getGenericZeroMaterialPropertyByNameExit is_ad self name).2.materialData.props .CURRENT
        (name, is_ad)
      = self.materialData.props .CURRENT (name, is_ad) := by
  have hexit : getGenericZeroMaterialPropertyByNameExit is_ad self name
      = (.error .pastConstructionStage, self) := by
    simp [getGenericZeroMaterialPropertyByNameExit, checkExecutionStage, h]
  refine ⟨?_, ?_, ?_, ?_, ?_, ?_, ?_⟩
  · simp [getGenericZeroMaterialPropertyByName, checkExecutionStage, h]
  all_goals rw [hexit]

/-- Witness for C11: the sample material past its construction stage, whose stored array of
"k" holds five non-zero entries, keeps that array when the request for "k" is rejected. -/
theorem rejected_zero_request_changes_nothing_witness :
    Sample.materialPastConstruction._fe_problem.startedInitialSetup = true ∧
    (getGenericZeroMaterialPropertyByNameExit false Sample.materialPastConstruction "k").1
      = .error .pastConstructionStage ∧
    (getGenericZeroMaterialPropertyByNameExit false Sample.materialPastConstruction
        "k").2.materialData.props .CURRENT ("k", false) = [7, 8, 9, 10, 11] := by
  have h := rejected_zero_request_changes_nothing false Sample.materialPastConstruction "k" rfl
  exact ⟨rfl, h.2.1, h.2.2.2.2.2.2⟩

end Moose
